import Mathlib

/- Shallow embedding of src/etl_pipeline.py (Victoria Road Traffic
   Analysis). Pure data transformations are modelled as Lean functions over
   lists; machine-width integer casts are modelled on Int with explicit
   wrap-around where the code applies astype. The int8/int16 read dtypes for
   identifiers and counts are modelled as Int pass-through (values assumed
   in range at read time). -/

/-- One raw SCATS interval row after the read_csv and renaming steps of
process_csv: NB_SCATS_SITE becomes site_id, QT_INTERVAL_COUNT becomes
datetime (the day timestamp, modelled abstractly as a Nat; pd.to_datetime
parses it without adding any hour component), NB_DETECTOR becomes
detector_id, CT_RECORDS becomes working_period_count. The columns dropped
by process_csv (NM_REGION, QT_VOLUME_24HOUR, CT_ALARM_24HOUR) are not
represented. The volumes field holds the ordered 15-minute volume columns
V1..V96; none models a missing value (NaN). -/
structure RawRow where
  site_id : Int
  datetime : Nat
  detector_id : Int
  working_period_count : Int
  volumes : List (Option Int)
deriving DecidableEq

/-- One cleaned output row: the five columns selected on the last line of
process_csv, in order datetime, site_id, detector_id, volume,
working_period_count. The hour column produced by melt is not among them. -/
structure CleanRow where
  datetime : Nat
  site_id : Int
  detector_id : Int
  volume : Int
  working_period_count : Int
deriving DecidableEq

/-- Wrap-around of the astype int16 conversion applied to the cleaned
volume columns. -/
def toInt16 (x : Int) : Int :=
  (x + 32768) % 65536 - 32768

/-- Value of a volume cell after df.fillna 0: a missing cell becomes 0. -/
def fillVal (v : Option Int) : Int :=
  v.getD 0

/-- The retention test of process_csv: the pandas expression
(df[volume_cols] > 0).any(axis=1). A missing cell compares as False, so a
row passes exactly when some cell holds a strictly positive value. -/
def hasPositiveVolume (r : RawRow) : Bool :=
  r.volumes.any (fun v => decide (0 < fillVal v))

/-- neg_mask.sum(axis=1): the number of volume cells that are negative
after fillna. Missing cells were filled with 0, so this counts exactly the
cells that held a negative value originally. -/
def negCount (r : RawRow) : Nat :=
  (r.volumes.map fillVal).countP (fun x => decide (x < 0))

/-- The volume cells after fillna 0, masking of negative cells to 0, and
the astype int16 conversion. -/
def cleanedVolumes (r : RawRow) : List Int :=
  (r.volumes.map fillVal).map (fun x => toInt16 (if x < 0 then 0 else x))

/-- The hourly aggregation of process_csv: hour h (0-based here, hour_1 in
the code is h = 0) sums volume_cols[h * 4 : (h + 1) * 4] of the cleaned
row; the pandas sum promotes to a wide integer, so no further wrap. -/
def hourVolume (r : RawRow) (h : Nat) : Int :=
  (((cleanedVolumes r).drop (4 * h)).take 4).sum

/-- The output row that melt produces for raw row r and hour h, after the
final five-column selection: datetime is the unmodified day timestamp of
the raw row (the hour label of melt is dropped by the selection), and
working_period_count is the original count minus the number of negative
volume cells. -/
def outRow (r : RawRow) (h : Nat) : CleanRow :=
  ⟨r.datetime, r.site_id, r.detector_id, hourVolume r h,
   r.working_period_count - (negCount r : Int)⟩

/-- The rows of a file that survive the two row filters of process_csv, in
order: the site filter df[df[NB_SCATS_SITE].isin(selected_sites)] followed
by the positive-volume filter. -/
def retainedRows (file : List RawRow) (sites : List Int) : List RawRow :=
  (file.filter (fun r => sites.contains r.site_id)).filter hasPositiveVolume

/-- process_csv: filter, clean and melt one CSV file. pandas melt stacks
the hour_1 block first, then hour_2, and so on; within each block the
retained rows keep their order. -/
def process_csv (file : List RawRow) (sites : List Int) : List CleanRow :=
  (List.range 24).flatMap (fun h => (retainedRows file sites).map (fun r => outRow r h))

/-- process_zip_file: the archive argument is the yearly ZIP, given as its
daily sub-archives in sorted traversal order, each a list of the CSV files
(non-CSV entries are skipped by the code and not represented) in sorted
order. The enumeration index i of the loop over sub-archives drives the
header workaround: df.iloc[1:] is taken when i > 0, so every file of every
sub-archive after the first loses its first row, while every file of
sub-archive 0 keeps all rows. pd.concat preserves order. -/
def process_zip_file (archive : List (List (List RawRow))) (sites : List Int) : List CleanRow :=
  archive.enum.flatMap (fun p =>
    p.2.flatMap (fun file =>
      if 0 < p.1 then (process_csv file sites).drop 1 else process_csv file sites))

/-- Modelled from the spec words of claim C2 only, for comparison with
process_zip_file: drop the first output row of every file except the first
file encountered (global file index 0) in the traversal order. -/
def spec_walk (archive : List (List (List RawRow))) (sites : List Int) : List CleanRow :=
  archive.flatten.enum.flatMap (fun p =>
    if 0 < p.1 then (process_csv p.2 sites).drop 1 else process_csv p.2 sites)

/-- Modelled from the spec words of claim C5 only, for comparison with the
retention filter of process_csv: every one of the volume fields is zero or
absent. -/
def spec_allZeroOrAbsent (r : RawRow) : Bool :=
  r.volumes.all (fun v => match v with | none => true | some x => x == 0)

/-- The conserved quantity claimed by C6: the sum of all positive values
among the raw volume fields (missing fields contribute nothing). -/
def posSum (r : RawRow) : Int :=
  (r.volumes.map (fun v => if 0 < fillVal v then fillVal v else 0)).sum

/-- One site metadata record of traffic_site_info.csv: site_id and suburb. -/
structure SiteRecord where
  site_id : Int
  suburb : String
deriving DecidableEq

/-- The configured region list SELECTED_SUBURBS of the source. -/
def SELECTED_SUBURBS : List String :=
  ["East Melbourne", "Richmond", "Cremorne", "Jolimont", "Melbourne",
   "South Yarra", "Southbank", "South Melbourne", "Fitzroy", "Collingwood"]

/-- load_selected_sites: keep the metadata rows whose suburb is a member of
SELECTED_SUBURBS (Series.isin, exact case-sensitive string equality) and
return their site_id values. The astype int16 cast is the identity on the
id range and is modelled as such. The function always returns a value; an
empty selection is returned like any other. -/
def load_selected_sites (site_df : List SiteRecord) : List Int :=
  (site_df.filter (fun r => SELECTED_SUBURBS.contains r.suburb)).map (fun r => r.site_id)

/-- The value kinds a schema rule can demand, the two dtype strings used by
validate_schema. -/
inductive DType where
  | int
  | datetime
deriving DecidableEq

/-- One schema rule dict: dtype entry (absent allowed, as dict.get returns
None), allow_na entry (dict.get with default True folded into a Bool), and
optional min and max entries. A max entry can be present in a rule dict,
but validate_schema never reads it. -/
structure Rule where
  dtype : Option DType
  allow_na : Bool
  min : Option Int
  max : Option Int
deriving DecidableEq

/-- One column of a validated table: its name, its pandas dtype summarised
by the two predicates validate_schema consults (is_integer_dtype and
is_datetime64_any_dtype), and its cells, where none models NaN and
timestamps are represented by their integer value. -/
structure Column where
  name : String
  isIntegerDtype : Bool
  isDatetimeDtype : Bool
  values : List (Option Int)
deriving DecidableEq

/-- Column lookup: the test col in df.columns together with df[col]. -/
def findColumn (df : List Column) (col : String) : Option Column :=
  df.find? (fun c => c.name == col)

/-- The checks validate_schema runs for one schema entry: on a missing
column, record the one violation and continue with the next entry; else
run the NaN check, the two dtype checks and the min bound check in order.
NaN cells compare as False in the pandas expression (s < min).any(), so
only present values participate in the bound check. No max check exists in
the code. -/
def checkField (df : List Column) (cr : String × Rule) : List String :=
  match findColumn df cr.1 with
  | none => ["Missing column: " ++ cr.1]
  | some s =>
    (if !cr.2.allow_na && s.values.contains none then [cr.1 ++ ": contains NaN values"] else [])
    ++ (if cr.2.dtype == some DType.int && !s.isIntegerDtype then [cr.1 ++ ": not integer dtype"] else [])
    ++ (if cr.2.dtype == some DType.datetime && !s.isDatetimeDtype then [cr.1 ++ ": not datetime dtype"] else [])
    ++ (match cr.2.min with
        | none => []
        | some m =>
          if s.values.any (fun v => match v with | none => false | some x => decide (x < m))
          then [cr.1 ++ ": contains values < " ++ toString m] else [])

/-- The errors list that validate_schema accumulates over every schema
entry, in schema order. -/
def validate_errors (df : List Column) (schema : List (String × Rule)) : List String :=
  schema.flatMap (checkField df)

/-- validate_schema: collect every violation, then raise ValueError with
the joined report when the list is non-empty; modelled as Except. -/
def validate_schema (df : List Column) (schema : List (String × Rule)) : Except String Unit :=
  let errors := validate_errors df schema
  if errors.isEmpty then Except.ok ()
  else Except.error ("Schema validation failed:\n" ++ String.intercalate "\n" errors)

/-- The SCHEMA constant of the source. -/
def SCHEMA : List (String × Rule) :=
  [("datetime", ⟨some DType.datetime, false, none, none⟩),
   ("site_id", ⟨some DType.int, false, none, none⟩),
   ("detector_id", ⟨some DType.int, false, none, none⟩),
   ("volume", ⟨some DType.int, false, some 0, none⟩),
   ("working_period_count", ⟨some DType.int, false, some 0, none⟩)]

/-- The per-year tail of main: validate_schema runs on the finished yearly
table, and to_parquet persists it only when no ValueError was raised; the
ok value is the persisted table, the error value the raised report. -/
def run_year (df : List Column) : Except String (List Column) :=
  match validate_schema df SCHEMA with
  | Except.ok _ => Except.ok df
  | Except.error e => Except.error e

/-- A schema with the max entry of every rule removed; validate_schema
never reads max, which the C8 analysis makes explicit. -/
def stripMax (schema : List (String × Rule)) : List (String × Rule) :=
  schema.map (fun cr => (cr.1, ⟨cr.2.dtype, cr.2.allow_na, cr.2.min, none⟩))

/-- The C4 scenario row: hour-1 windows 5, -3, 0, missing, the remaining 92
windows 0, working period count 4. -/
def scenarioRow : RawRow :=
  ⟨100, 400, 2, 4, some 5 :: some (-3) :: some 0 :: none :: List.replicate 92 (some 0)⟩

/-- A plain retained row: one positive window, the rest 0. -/
def posRow : RawRow :=
  ⟨7, 410, 1, 96, some 1 :: List.replicate 95 (some 0)⟩

/-- A row whose 96 windows are all 1, used to evaluate the datetime field
of the cleaned output. -/
def dayRow : RawRow :=
  ⟨7, 500, 2, 96, List.replicate 96 (some 1)⟩

/-- A retained row with working period count 0 and one negative window, so
the corrected count goes below zero. -/
def badRow : RawRow :=
  ⟨7, 420, 3, 0, some 1 :: some (-1) :: List.replicate 94 (some 0)⟩

/-- A row whose only non-zero window is negative: not all-zero-or-absent,
yet without any positive window. -/
def negRow : RawRow :=
  ⟨7, 430, 4, 96, some (-1) :: List.replicate 95 (some 0)⟩

/-- A yearly archive whose first daily sub-archive holds two files of one
retained row each. -/
def cexArchive : List (List (List RawRow)) :=
  [[[posRow], [posRow]]]

/-- The C7 scenario table: five conforming columns except that the single
volume value is -1. -/
def c7df : List Column :=
  [⟨"datetime", false, true, [some 0]⟩,
   ⟨"site_id", true, false, [some 1]⟩,
   ⟨"detector_id", true, false, [some 1]⟩,
   ⟨"volume", true, false, [some (-1)]⟩,
   ⟨"working_period_count", true, false, [some 4]⟩]

/-- A rule that declares a maximum bound of 5 and nothing else that could
fire. -/
def maxRule : Rule :=
  ⟨some DType.int, true, none, some 5⟩

/-- An integer column holding the single value 6, above the bound of
maxRule. -/
def maxCol : Column :=
  ⟨"volume", true, false, [some 6]⟩

/-- A rule used to exercise the missing-column branch. -/
def rule10 : Rule :=
  ⟨some DType.datetime, false, none, none⟩

/-- C1: evaluation of process_csv on one retained raw row: the cleaned
table has the 24 hourly rows, but every one of them carries the bare day
timestamp of the raw row, and the rows of hour 1 and hour 2 are fully
identical in the five output fields: the hour is not recoverable from the
output. -/
theorem c1_datetime_no_hour :
    (process_csv [dayRow] [7]).length = 24 ∧
    (∀ r ∈ process_csv [dayRow] [7], r.datetime = dayRow.datetime) ∧
    (process_csv [dayRow] [7]).get? 0 = (process_csv [dayRow] [7]).get? 1 := by
  decide

/-- C2 counterexample: a yearly archive whose first daily sub-archive holds
two one-row files. The code keeps every row of both files (48 cleaned rows)
because the drop is keyed on the sub-archive index, while the claimed
per-file rule of spec_walk drops the first row of the second file (47
rows). -/
theorem c2_counterexample :
    (process_zip_file cexArchive [7]).length = 48 ∧
    (spec_walk cexArchive [7]).length = 47 ∧
    process_zip_file cexArchive [7] ≠ spec_walk cexArchive [7] := by
  decide

/-- C3 counterexample: a retained row with working period count 0 and one
negative window yields output rows with working_period_count = -1, so the
claimed unconditional non-negativity fails on the output of clean. -/
theorem c3_counterexample :
    ¬ ∀ r ∈ process_csv [badRow] [7], 0 ≤ r.volume ∧ 0 ≤ r.working_period_count := by
  decide

/-- C5 counterexample: a site-selected row whose only non-zero window is
negative. Not every field is zero or absent, so the claimed filter would
retain it, yet process_csv emits no row for it: the code drops every row
without a strictly positive window. -/
theorem c5_counterexample :
    spec_allZeroOrAbsent negRow = false ∧
    List.contains [(7 : Int)] negRow.site_id = true ∧
    process_csv [negRow] [7] = [] := by
  decide

/-- C8 counterexample: a schema rule declaring max 5 over a column holding
6 produces no violation at all, because validate_schema implements no
maximum bound check. -/
theorem c8_counterexample :
    maxRule.max = some 5 ∧ ((6 : Int) > 5) ∧ maxCol.values = [some 6] ∧
    validate_errors [maxCol] [("volume", maxRule)] = [] := by
  decide

/-- Membership in the retained rows of a file is membership in the file
plus the two filter conditions of process_csv. -/
theorem mem_retainedRows (file : List RawRow) (sites : List Int) (raw : RawRow) :
    raw ∈ retainedRows file sites ↔
      raw ∈ file ∧ sites.contains raw.site_id = true ∧ hasPositiveVolume raw = true := by
  simp only [retainedRows, List.mem_filter, and_assoc]

/-- The rows of the cleaned table are exactly the melt images of the
retained rows over the 24 hours. -/
theorem mem_process_csv_iff (file : List RawRow) (sites : List Int) (r : CleanRow) :
    r ∈ process_csv file sites ↔
      ∃ h ∈ List.range 24, ∃ raw ∈ retainedRows file sites, outRow raw h = r := by
  simp only [process_csv, List.mem_flatMap, List.mem_map]

/-- C4: every output row of a retained raw row carries working_period_count
equal to the original count minus the number of negative volume cells,
the count being taken on the pre-correction values, and one such output
row exists for each of the 24 hours. -/
theorem c4_working_period (file : List RawRow) (sites : List Int) (raw : RawRow)
    (hmem : raw ∈ file) (hsite : sites.contains raw.site_id = true)
    (hpos : hasPositiveVolume raw = true) :
    ∀ h ∈ List.range 24,
      outRow raw h ∈ process_csv file sites ∧
      (outRow raw h).working_period_count =
        raw.working_period_count - (negCount raw : Int) := by
  intro h hh
  refine ⟨?_, rfl⟩
  exact List.mem_flatMap.mpr
    ⟨h, hh, List.mem_map_of_mem _ ((mem_retainedRows file sites raw).mpr ⟨hmem, hsite, hpos⟩)⟩

/-- Witness for C4, the spec scenario: hour-1 windows 5, -3, 0, missing
with original count 4 give an output row of volume 5 and count 3. -/
theorem c4_witness :
    outRow scenarioRow 0 ∈ process_csv [scenarioRow] [100] ∧
    (outRow scenarioRow 0).working_period_count = 3 ∧
    (outRow scenarioRow 0).volume = 5 := by
  have h := c4_working_period [scenarioRow] [100] scenarioRow (by decide) (by decide)
    (by decide) 0 (by decide)
  exact ⟨h.1, h.2.trans (by decide), by decide⟩

/-- C9: load_selected_sites selects exactly the site ids whose suburb is,
by exact case-sensitive string equality, one of the configured region
names, and an empty selection is returned as the ordinary empty value. -/
theorem c9_select (meta : List SiteRecord) :
    (∀ s : Int, s ∈ load_selected_sites meta ↔
        ∃ r, r ∈ meta ∧ r.suburb ∈ SELECTED_SUBURBS ∧ r.site_id = s) ∧
    ((∀ r ∈ meta, r.suburb ∉ SELECTED_SUBURBS) → load_selected_sites meta = []) := by
  constructor
  · intro s
    unfold load_selected_sites
    rw [List.mem_map]
    constructor
    · rintro ⟨r, hr, rfl⟩
      rw [List.mem_filter] at hr
      exact ⟨r, hr.1, List.elem_iff.mp hr.2, rfl⟩
    · rintro ⟨r, hr, hs, rfl⟩
      exact ⟨r, List.mem_filter.mpr ⟨hr, List.elem_iff.mpr hs⟩, rfl⟩
  · intro hnone
    unfold load_selected_sites
    have h : meta.filter (fun r => SELECTED_SUBURBS.contains r.suburb) = [] :=
      List.filter_eq_nil_iff.mpr (fun r hr hc => hnone r hr (List.elem_iff.mp hc))
    rw [h]
    rfl

/-- Witness for C9: a metadata table with no suburb among the configured
regions yields the empty selection. -/
theorem c9_witness : load_selected_sites [⟨1, "Nowhere"⟩] = [] :=
  (c9_select [⟨1, "Nowhere"⟩]).2 (by decide)

/-- C10: a schema field absent from the table contributes exactly the one
missing-column violation, whatever its other rules demand, and the fields
before and after it are still checked as usual. -/
theorem c10_missing_column (df : List Column) (pre post : List (String × Rule))
    (col : String) (rule : Rule) (habs : findColumn df col = none) :
    validate_errors df (pre ++ (col, rule) :: post) =
      validate_errors df pre ++ ("Missing column: " ++ col) :: validate_errors df post := by
  unfold validate_errors
  rw [List.flatMap_append, List.flatMap_cons]
  have h : checkField df (col, rule) = ["Missing column: " ++ col] := by
    simp [checkField, habs]
  rw [h]
  rfl

/-- Witness for C10: an empty table misses a declared datetime column and
gets exactly the one violation. -/
theorem c10_witness :
    validate_errors [] [("datetime", rule10)] = ["Missing column: datetime"] :=
  (c10_missing_column [] [] [] "datetime" rule10 rfl).trans (by decide)

/-- The int16 conversion applied after zeroing negatives is exact when the
original value does not exceed the int16 maximum, and turns the cell into
its positive part. -/
theorem toInt16_clean (x : Int) (hx : x ≤ 32767) :
    toInt16 (if x < 0 then 0 else x) = if 0 < x then x else 0 := by
  unfold toInt16
  split_ifs <;> omega

/-- Every cleaned volume cell of a row with in-range values equals its
positive part. -/
theorem cleanedVolumes_eq_pos (r : RawRow) (hr : ∀ v ∈ r.volumes, fillVal v ≤ 32767) :
    cleanedVolumes r = r.volumes.map (fun v => if 0 < fillVal v then fillVal v else 0) := by
  unfold cleanedVolumes
  rw [List.map_map]
  refine List.map_congr_left (fun v hv => ?_)
  exact toInt16_clean (fillVal v) (hr v hv)

/-- Every cleaned volume cell of a row with in-range values is
non-negative. -/
theorem cleanedVolumes_nonneg (r : RawRow) (hr : ∀ v ∈ r.volumes, fillVal v ≤ 32767) :
    ∀ y ∈ cleanedVolumes r, 0 ≤ y := by
  intro y hy
  rw [cleanedVolumes_eq_pos r hr] at hy
  obtain ⟨v, _, rfl⟩ := List.mem_map.mp hy
  split_ifs with h
  · exact le_of_lt h
  · exact le_refl 0

/-- Summing the groups of four over n hours sums the first 4 * n cells. -/
theorem sum_take_chunks (n : Nat) (l : List Int) :
    ((List.range n).map (fun h => ((l.drop (4 * h)).take 4).sum)).sum =
      (l.take (4 * n)).sum := by
  induction n with
  | zero => simp
  | succ k ih =>
    rw [List.range_succ, List.map_append, List.sum_append, ih]
    have h4 : 4 * (k + 1) = 4 * k + 4 := by ring
    rw [h4, List.take_add, List.sum_append]
    simp

/-- C3 amended: every row of the cleaned table has volume at least 0 when
the raw values fit int16, and working_period_count at least 0 when no raw
row has more negative volume cells than its original working period
count. -/
theorem c3_amended (file : List RawRow) (sites : List Int) :
    ((∀ raw ∈ file, ∀ v ∈ raw.volumes, fillVal v ≤ 32767) →
      ∀ r ∈ process_csv file sites, 0 ≤ r.volume) ∧
    ((∀ raw ∈ file, (negCount raw : Int) ≤ raw.working_period_count) →
      ∀ r ∈ process_csv file sites, 0 ≤ r.working_period_count) := by
  constructor
  · intro hb r hr
    obtain ⟨h, _, raw, hraw, rfl⟩ := (mem_process_csv_iff file sites r).mp hr
    have hfile : raw ∈ file := ((mem_retainedRows file sites raw).mp hraw).1
    refine List.sum_nonneg (fun a ha => ?_)
    exact cleanedVolumes_nonneg raw (hb raw hfile) a
      (List.mem_of_mem_drop (List.mem_of_mem_take ha))
  · intro hb r hr
    obtain ⟨h, _, raw, hraw, rfl⟩ := (mem_process_csv_iff file sites r).mp hr
    have hfile : raw ∈ file := ((mem_retainedRows file sites raw).mp hraw).1
    have := hb raw hfile
    show 0 ≤ raw.working_period_count - (negCount raw : Int)
    omega

/-- Witness for C3 amended: the first output row of a well-behaved file has
non-negative volume and working period count. -/
theorem c3_witness :
    0 ≤ (outRow posRow 0).volume ∧ 0 ≤ (outRow posRow 0).working_period_count :=
  ⟨(c3_amended [posRow] [7]).1 (by decide) (outRow posRow 0) (by decide),
   (c3_amended [posRow] [7]).2 (by decide) (outRow posRow 0) (by decide)⟩

/-- Melting k hour blocks over a fixed list of rows emits k rows per
retained row. -/
theorem length_flatMap_map {α β : Type} (k : Nat) (l : List α) (g : Nat → α → β) :
    ((List.range k).flatMap (fun h => l.map (g h))).length = k * l.length := by
  induction k with
  | zero => simp
  | succ n ih =>
    rw [List.range_succ, List.flatMap_append, List.length_append, ih]
    simp [Nat.succ_mul]

/-- C5 amended: the cleaned table holds 24 rows per retained row, and a
site-selected row is retained exactly when some volume cell is strictly
positive; a row whose cells are all non-positive or absent contributes
nothing. -/
theorem c5_amended (file : List RawRow) (sites : List Int) :
    (process_csv file sites).length = 24 * (retainedRows file sites).length ∧
    ∀ raw, raw ∈ retainedRows file sites ↔
      raw ∈ file ∧ sites.contains raw.site_id = true ∧ hasPositiveVolume raw = true := by
  exact ⟨length_flatMap_map 24 (retainedRows file sites) (fun h r => outRow r h),
    fun raw => mem_retainedRows file sites raw⟩

set_option maxRecDepth 4000 in
/-- C6: for a retained raw row with the 96 volume fields in int16 range,
the sum of the positive raw values equals the sum of the 24 hourly volumes
of its output rows, each of which the cleaned table contains. -/
theorem c6_conservation (file : List RawRow) (sites : List Int) (raw : RawRow)
    (hmem : raw ∈ file) (hsite : sites.contains raw.site_id = true)
    (hpos : hasPositiveVolume raw = true)
    (hlen : raw.volumes.length = 96)
    (hrange : ∀ v ∈ raw.volumes, fillVal v ≤ 32767) :
    posSum raw = ((List.range 24).map (fun h => (outRow raw h).volume)).sum ∧
    ∀ h ∈ List.range 24, outRow raw h ∈ process_csv file sites := by
  constructor
  · simp only [outRow, hourVolume]
    rw [sum_take_chunks 24 (cleanedVolumes raw)]
    have hlen2 : (cleanedVolumes raw).length = 96 := by
      simp [cleanedVolumes, hlen]
    have htake : (cleanedVolumes raw).take (4 * 24) = cleanedVolumes raw :=
      List.take_of_length_le (le_of_eq hlen2)
    have hsum : (cleanedVolumes raw).sum = posSum raw := by
      rw [cleanedVolumes_eq_pos raw hrange]
      rfl
    rw [htake, hsum]
  · intro h hh
    exact List.mem_flatMap.mpr
      ⟨h, hh, List.mem_map_of_mem _ ((mem_retainedRows file sites raw).mpr ⟨hmem, hsite, hpos⟩)⟩

set_option maxRecDepth 10000 in
/-- Witness for C6: the scenario row conserves its positive mass 5. -/
theorem c6_witness :
    posSum scenarioRow =
      ((List.range 24).map (fun h => (outRow scenarioRow h).volume)).sum ∧
    posSum scenarioRow = 5 :=
  ⟨(c6_conservation [scenarioRow] [100] scenarioRow (by decide) (by decide) (by decide)
      (by decide) (by decide)).1, by decide⟩

/-- C2 amended: the drop of the leading cleaned row is keyed on the daily
sub-archive index, not the file index. Two files in the first sub-archive
both keep all their rows, so their tables concatenate in full, while a
file in a later sub-archive always loses its first row. -/
theorem c2_amended (A B : List RawRow) (sites : List Int) :
    process_zip_file [[A, B]] sites = process_csv A sites ++ process_csv B sites ∧
    process_zip_file [[A], [B]] sites =
      process_csv A sites ++ (process_csv B sites).drop 1 := by
  constructor
  · show (process_csv A sites ++ (process_csv B sites ++ [])) ++ [] = _
    simp
  · show (process_csv A sites ++ []) ++ (((process_csv B sites).drop 1 ++ []) ++ []) = _
    simp

/-- C7: validate_schema examines every schema entry and accumulates the
violations of all of them; the scenario table whose only flaw is a volume
of -1 yields exactly the one violation naming the field and its bound, the
year aborts with the full report, and a year is persisted exactly when the
violation list is empty. -/
theorem c7_validator :
    (∀ (s₁ s₂ : List (String × Rule)) (df : List Column),
        validate_errors df (s₁ ++ s₂) = validate_errors df s₁ ++ validate_errors df s₂) ∧
    validate_errors c7df SCHEMA = ["volume: contains values < 0"] ∧
    run_year c7df = Except.error "Schema validation failed:\nvolume: contains values < 0" ∧
    (∀ df : List Column, run_year df = Except.ok df ↔ validate_errors df SCHEMA = []) := by
  refine ⟨fun s₁ s₂ df => List.flatMap_append s₁ s₂ (checkField df), by decide, ?_, ?_⟩
  · have h : validate_errors c7df SCHEMA = ["volume: contains values < 0"] := by decide
    simp only [run_year, validate_schema, h]
    rfl
  · intro df
    rcases hE : validate_errors df SCHEMA with _ | ⟨e, es⟩
    · simp [run_year, validate_schema, hE]
    · simp [run_year, validate_schema, hE]

/-- C8 amended: validate_schema never reads the max entry of a rule, so it
reports no above-maximum violation; it does report the below-minimum
violation for every field with a declared minimum and an offending present
value. -/
theorem c8_amended :
    (∀ (df : List Column) (schema : List (String × Rule)),
        validate_errors df (stripMax schema) = validate_errors df schema) ∧
    (∀ (df : List Column) (schema : List (String × Rule)) (col : String)
        (rule : Rule) (m : Int) (c : Column),
        (col, rule) ∈ schema → rule.min = some m → findColumn df col = some c →
        c.values.any (fun v => match v with | none => false | some x => decide (x < m)) = true →
        (col ++ ": contains values < " ++ toString m) ∈ validate_errors df schema) := by
  constructor
  · intro df schema
    induction schema with
    | nil => rfl
    | cons cr rest ih =>
      have hhead : checkField df (cr.1, ⟨cr.2.dtype, cr.2.allow_na, cr.2.min, none⟩) =
          checkField df cr := by
        rcases cr with ⟨c, r⟩
        rcases r with ⟨d, a, mi, mx⟩
        rfl
      calc validate_errors df (stripMax (cr :: rest))
          = checkField df (cr.1, ⟨cr.2.dtype, cr.2.allow_na, cr.2.min, none⟩)
              ++ validate_errors df (stripMax rest) := rfl
        _ = checkField df cr ++ validate_errors df rest := by rw [hhead, ih]
        _ = validate_errors df (cr :: rest) := rfl
  · intro df schema col rule m c hmem hmin hfind hany
    refine List.mem_flatMap.mpr ⟨(col, rule), hmem, ?_⟩
    simp only [checkField, hfind, hmin, hany]
    simp

/-- Witness for C8 amended: the scenario table of C7 is reported for its
volume of -1 under the minimum bound 0 of the volume rule of SCHEMA. -/
theorem c8_witness :
    ("volume" ++ ": contains values < " ++ toString (0 : Int)) ∈
      validate_errors c7df SCHEMA :=
  c8_amended.2 c7df SCHEMA "volume" ⟨some DType.int, false, some 0, none⟩ 0
    ⟨"volume", true, false, [some (-1)]⟩ (by decide) rfl (by decide) (by decide)
